import Mathlib

/-!
Verification development for the documentation-testing pipeline
(`code_extractor`, `dependency_resolver`, `error_recovery`, `test_config`,
`example_tester`, and the CLI cache layer).  Rust code is shallowly embedded:
strings stay strings, `Duration` becomes a `Nat` of milliseconds, `f64`
failure rates become exact rationals, `HashMap` becomes an association list
with first-match lookup, and the `cargo` subprocess is abstracted to an
oracle recording how long it runs and what it prints.
-/

namespace EmbeddedRustTutorial

/-- Does the pattern (first argument) occur at the start of the text? -/
def matchesAt : List Char → List Char → Bool
  | [], _ => true
  | _ :: _, [] => false
  | p :: ps, c :: cs => p = c && matchesAt ps cs

/-- Does the pattern (first argument) occur anywhere in the text? -/
def occursWithin (pat : List Char) : List Char → Bool
  | [] => pat.isEmpty
  | c :: cs => matchesAt pat (c :: cs) || occursWithin pat cs

/-- Rust `str::contains` (substring containment). -/
def strContains (s pat : String) : Bool :=
  occursWithin pat.toList s.toList

/-- Rust `str::starts_with`. -/
def strStartsWith (s pre : String) : Bool :=
  matchesAt pre.toList s.toList

/-- Split a character list at every occurrence of one separator char. -/
def splitCharsOn (sep : Char) : List Char → List (List Char)
  | [] => [[]]
  | c :: cs =>
    let rest := splitCharsOn sep cs
    if c = sep then [] :: rest
    else
      match rest with
      | [] => [[c]]
      | r :: rs => (c :: r) :: rs

/-- Rust `str::split('sep')` as strings. -/
def strSplitOnChar (s : String) (sep : Char) : List String :=
  (splitCharsOn sep s.toList).map String.mk

/-- The characters before the first occurrence of the pattern (the whole
text when the pattern does not occur): `splitOn(pat).next()`. -/
def charsBefore (pat : List Char) : List Char → List Char
  | [] => []
  | c :: cs => if matchesAt pat (c :: cs) then [] else c :: charsBefore pat cs

/-- Rust `str::trim` (ASCII/Unicode whitespace from both ends). -/
def rustTrim (s : String) : String :=
  String.mk
    (((s.toList.dropWhile Char.isWhitespace).reverse.dropWhile
        Char.isWhitespace).reverse)

/-- Rust `str::len()`: the UTF-8 byte length. -/
def utf8Len (s : String) : Nat :=
  s.toList.foldl (fun n c => n + c.utf8Size) 0

/-- Rust `Iterator::take(n).collect::<String>()` on chars. -/
def strTake (s : String) (n : Nat) : String :=
  String.mk (s.toList.take n)

/-- Dropping the first `n` chars of a string. -/
def strDrop (s : String) (n : Nat) : String :=
  String.mk (s.toList.drop n)

/-- Rust `str::replace('a', "b")` for one-char replacements. -/
def strReplaceChar (s : String) (a b : Char) : String :=
  String.mk (s.toList.map (fun c => if c = a then b else c))

/-- `String::join` with a separator (Rust `Vec::join`). -/
def strJoin (sep : String) : List String → String
  | [] => ""
  | [x] => x
  | x :: xs => x ++ sep ++ strJoin sep xs

/-- Rust `str::lines`: split at `\n`, strip a trailing `\r` from each line,
and do not produce a final empty line for a trailing newline. -/
def rustLines (s : String) : List String :=
  let parts := strSplitOnChar s '\n'
  let parts := if parts.getLast? = some "" then parts.dropLast else parts
  parts.map (fun l =>
    match l.toList.getLast? with
    | some c => if c = '\r' then String.mk l.toList.dropLast else l
    | none => l)

/-- Split a character list at every char satisfying the predicate. -/
def splitCharsOnPred (p : Char → Bool) : List Char → List (List Char)
  | [] => [[]]
  | c :: cs =>
    let rest := splitCharsOnPred p cs
    if p c then [] :: rest
    else
      match rest with
      | [] => [[c]]
      | r :: rs => (c :: r) :: rs

/-- Rust `str::split_whitespace`: split on whitespace, discarding empties. -/
def rustSplitWhitespace (s : String) : List String :=
  ((splitCharsOnPred Char.isWhitespace s.toList).map String.mk).filter
    (fun t => t ≠ "")

/-- Rust `str::trim_end_matches(';')`. -/
def trimEndSemicolons (s : String) : String :=
  String.mk (s.toList.reverse.dropWhile (fun c => c = ';')).reverse

/-- Insert a string into a sorted list (ascending). -/
def insertSorted (s : String) : List String → List String
  | [] => [s]
  | x :: xs => if s ≤ x then s :: x :: xs else x :: insertSorted s xs

/-- Rust `Vec::sort` on strings (lexicographic). -/
def sortStrings (xs : List String) : List String :=
  xs.foldr insertSorted []

/-- Rust `Vec::dedup`: remove consecutive duplicates. -/
def dedupAdjacent : List String → List String
  | [] => []
  | [x] => [x]
  | x :: y :: rest =>
    if x = y then dedupAdjacent (y :: rest) else x :: dedupAdjacent (y :: rest)

/-- `Debug` rendering of a `Vec<String>`. -/
def listDebug (xs : List String) : String :=
  "[" ++ strJoin ", " (xs.map (fun s => "\"" ++ s ++ "\"")) ++ "]"

/-- `Debug` rendering of an `Option<String>`. -/
def optStrDebug : Option String → String
  | none => "None"
  | some s => "Some(\"" ++ s ++ "\")"

/-- `Debug` rendering of an `Option<usize>`. -/
def optNatDebug : Option Nat → String
  | none => "None"
  | some n => "Some(" ++ toString n ++ ")"

/-- Rust `Vec::contains` for strings. -/
def listContains (xs : List String) (s : String) : Bool :=
  xs.contains s

/-! ## `test_config.rs` -/

/-- `TestConfig` (`test_config.rs`).  `compilation_timeout` is a `Duration`,
embedded as a number of milliseconds; `work_dir` as a path string. -/
structure TestConfig where
  targets : List String
  features : List String
  no_std : Bool
  embedded_mode : Bool
  compilation_timeout : Nat
  work_dir : String
deriving Repr, DecidableEq

/-- `TestConfig::default()`: the host target, no features, a 30 s timeout. -/
def TestConfig.default : TestConfig :=
  { targets := ["x86_64-unknown-linux-gnu"]
    features := []
    no_std := false
    embedded_mode := false
    compilation_timeout := 30000
    work_dir := "/tmp/rust_example_tests" }

/-- `CompilationError` (`test_config.rs`), the seven-variant error taxonomy. -/
inductive CompilationError where
  | SyntaxError (message : String) (line : Option Nat) (column : Option Nat)
  | DependencyError (missing : List String)
  | FeatureError (unsupported : List String)
  | TargetError (incompatible_target : String) (reason : String)
  | TimeoutError (duration : Nat)
  | CompilationFailed (exit_code : Int) (message : String)
  | IoError (message : String)
deriving Repr, DecidableEq

/-- `TestResult` (`test_config.rs`). -/
structure TestResult where
  example_id : String
  success : Bool
  compilation_time : Nat
  target : String
  error : Option CompilationError
  warnings : List String
  stdout : String
  stderr : String
deriving Repr, DecidableEq

/-- `TestResult::success`. -/
def TestResult.mkSuccess (example_id target : String) (compilation_time : Nat) :
    TestResult :=
  { example_id, success := true, compilation_time, target
    error := none, warnings := [], stdout := "", stderr := "" }

/-- `TestResult::failure`. -/
def TestResult.mkFailure (example_id target : String) (compilation_time : Nat)
    (error : CompilationError) (stderr : String) : TestResult :=
  { example_id, success := false, compilation_time, target
    error := some error, warnings := [], stdout := "", stderr }

/-- `RecoveryStatistics` (`test_config.rs`). -/
structure RecoveryStatistics where
  successful_recoveries : Nat := 0
  failed_recoveries : Nat := 0
  marked_as_snippets : Nat := 0
  fallback_attempts : Nat := 0
  feature_disabling_attempts : Nat := 0
  timeout_extensions : Nat := 0
deriving Repr, DecidableEq

/-- `ValidationReport` (`test_config.rs`). -/
structure ValidationReport where
  total_examples : Nat
  successful : Nat
  failed : Nat
  skipped : Nat
  snippets : Nat
  recovered : Nat
  results : List TestResult
  total_duration : Nat
  recovery_stats : RecoveryStatistics
deriving Repr, DecidableEq

/-- `ValidationReport::new()`. -/
def ValidationReport.new : ValidationReport :=
  { total_examples := 0, successful := 0, failed := 0, skipped := 0
    snippets := 0, recovered := 0, results := [], total_duration := 0
    recovery_stats := {} }

/-- `ValidationReport::add_result`. -/
def ValidationReport.add_result (r : ValidationReport) (result : TestResult) :
    ValidationReport :=
  { r with
    total_examples := r.total_examples + 1
    total_duration := r.total_duration + result.compilation_time
    successful := if result.success then r.successful + 1 else r.successful
    failed := if result.success then r.failed else r.failed + 1
    results := r.results ++ [result] }

/-- `ValidationReport::skip_example`: records a synthetic failing result
tagged `"skipped"` with a `CompilationFailed` error of exit code 0. -/
def ValidationReport.skip_example (r : ValidationReport)
    (example_id reason : String) : ValidationReport :=
  { r with
    total_examples := r.total_examples + 1
    skipped := r.skipped + 1
    results := r.results ++
      [{ example_id
         success := false
         compilation_time := 0
         target := "skipped"
         error := some (.CompilationFailed 0 ("Skipped: " ++ reason))
         warnings := []
         stdout := ""
         stderr := "" }] }

/-- `ValidationReport::mark_as_snippet`: records a synthetic successful
result tagged `"snippet"` with no error. -/
def ValidationReport.mark_as_snippet (r : ValidationReport)
    (example_id reason : String) : ValidationReport :=
  { r with
    total_examples := r.total_examples + 1
    snippets := r.snippets + 1
    results := r.results ++
      [{ example_id
         success := true
         compilation_time := 0
         target := "snippet"
         error := none
         warnings := []
         stdout := "Marked as snippet: " ++ reason
         stderr := "" }] }

/-! ## `code_extractor.rs` -/

/-- `ExampleContext` (`code_extractor.rs`): the runtime profile of a block. -/
inductive ExampleContext where
  | Std (features : List String)
  | NoStd (target : String) (features : List String)
  | Hardware (platform : String) (features : List String)
  | Crypto (algorithm : Option String) (features : List String)
  | Snippet (reason : String)
deriving Repr, DecidableEq

/-- `ExampleContext::should_compile`: everything but `Snippet`. -/
def ExampleContext.should_compile : ExampleContext → Bool
  | .Snippet _ => false
  | _ => true

/-- `ExampleContext::is_no_std`: `NoStd`, `Hardware`, or `Crypto`. -/
def ExampleContext.is_no_std : ExampleContext → Bool
  | .NoStd _ _ => true
  | .Hardware _ _ => true
  | .Crypto _ _ => true
  | _ => false

/-- The raw annotation map (`HashMap<String, Option<String>>`), embedded as
an association list with first-match lookup. -/
def Annotations := List (String × Option String)

/-- `HashMap::get` for the annotation map. -/
def annGet (ann : Annotations) (key : String) : Option (Option String) :=
  match ann with
  | [] => none
  | (k, v) :: rest => if k = key then some v else annGet rest key

/-- `HashMap::contains_key` for the annotation map. -/
def annContainsKey (ann : Annotations) (key : String) : Bool :=
  (annGet ann key).isSome

/-- `CodeExample` (`code_extractor.rs`).  `source_file` is a path string. -/
structure CodeExample where
  id : String
  source_file : String
  line_number : Nat
  code : String
  context : ExampleContext
  annotations : List (String × Option String)
  dependencies : List String

/-- `Debug` rendering of `ExampleContext` (derived `Debug` in the source),
used verbatim inside recovery-cache keys. -/
def contextDebug : ExampleContext → String
  | .Std features => "Std \x7b features: " ++ listDebug features ++ " \x7d"
  | .NoStd target features =>
      "NoStd \x7b target: \"" ++ target ++ "\", features: " ++
        listDebug features ++ " \x7d"
  | .Hardware platform features =>
      "Hardware \x7b platform: \"" ++ platform ++ "\", features: " ++
        listDebug features ++ " \x7d"
  | .Crypto algorithm features =>
      "Crypto \x7b algorithm: " ++ optStrDebug algorithm ++ ", features: " ++
        listDebug features ++ " \x7d"
  | .Snippet reason => "Snippet \x7b reason: \"" ++ reason ++ "\" \x7d"

/-- `CodeExtractor::extract_features`: explicit `features=` values plus the
implicit `crypto`/`hardware` features, sorted and deduplicated. -/
def extract_features (ann : Annotations) : List String :=
  let features :=
    match annGet ann "features" with
    | some (some features_str) =>
        ((strSplitOnChar features_str ',').map rustTrim).filter (fun s => s ≠ "")
    | _ => []
  let features := features ++ (if annContainsKey ann "crypto" then ["crypto"] else [])
  let features := features ++ (if annContainsKey ann "hardware" then ["hardware"] else [])
  dedupAdjacent (sortStrings features)

/-- The crypto pattern table of `CodeExtractor::is_crypto_code`. -/
def crypto_patterns : List String :=
  ["zeroize", "Zeroize", "aes::", "Aes", "sha2::", "Sha256", "Sha512",
   "chacha20", "ChaCha20", "ed25519", "Ed25519", "rsa::", "RSA",
   "hmac::", "HMAC", "pbkdf2", "PBKDF2",
   "encrypt", "decrypt", "cipher", "hash_password", "verify_password",
   "sign_message", "verify_signature", "derive_key", "generate_key",
   "SecureKey", "CryptoError", "constant_time", "timing_safe",
   "secure_random", "crypto_random",
   "crypto_hardware", "hardware_rng", "secure_element",
   "private_key", "public_key", "secret_key", "master_key",
   "encryption_key", "signing_key", "key_pair", "KeyPair",
   "key.zeroize", "key_material", "derive_key"]

/-- `CodeExtractor::is_crypto_code`. -/
def is_crypto_code (code : String) : Bool :=
  crypto_patterns.any (fun pattern => strContains code pattern)

/-- `CodeExtractor::detect_crypto_algorithm`. -/
def detect_crypto_algorithm (code : String) : Option String :=
  if strContains code "aes" || strContains code "Aes" then some "AES"
  else if strContains code "sha" || strContains code "Sha" then some "SHA"
  else if strContains code "chacha" || strContains code "ChaCha" then some "ChaCha20"
  else if strContains code "ecdh" || strContains code "ECDH" then some "ECDH"
  else if strContains code "rsa" || strContains code "RSA" then some "RSA"
  else if strContains code "ed25519" || strContains code "Ed25519" then some "Ed25519"
  else none

/-- The hardware keyword table of `CodeExtractor::is_hardware_code`. -/
def hardware_keywords : List String :=
  ["stm32", "STM32", "cortex_m", "cortex-m", "embedded_hal", "hal::",
   "GPIO", "gpio::", "SPI", "spi::", "I2C", "i2c::", "UART", "uart::",
   "Timer", "timer::", "PWM", "pwm::", "ADC", "adc::", "DMA", "dma::",
   "interrupt", "Interrupt", "NVIC", "nvic", "pac::", "PAC",
   "rcc::", "RCC", "clocks", "Clocks", "pins", "Pins"]

/-- `CodeExtractor::is_hardware_code`. -/
def is_hardware_code (code : String) : Bool :=
  hardware_keywords.any (fun keyword => strContains code keyword)

/-- `CodeExtractor::detect_hardware_platform`. -/
def detect_hardware_platform (code : String) : Option String :=
  if strContains code "stm32f4" || strContains code "STM32F4" then some "STM32F4"
  else if strContains code "stm32f3" || strContains code "STM32F3" then some "STM32F3"
  else if strContains code "stm32l4" || strContains code "STM32L4" then some "STM32L4"
  else if strContains code "nrf52" || strContains code "NRF52" then some "nRF52"
  else if strContains code "esp32" || strContains code "ESP32" then some "ESP32"
  else if strContains code "rp2040" || strContains code "RP2040" then some "RP2040"
  else if strContains code "cortex_m" || strContains code "cortex-m" then some "Cortex-M"
  else none

/-- `code.contains("#![no_std]") || code.contains("#![no_main]")`: the
explicit runtime-disabling attributes checked first in `is_no_std_code`. -/
def hasExplicitNoStdAttr (code : String) : Bool :=
  strContains code "#![no_std]" || strContains code "#![no_main]"

/-- The `no_std_indicators` table of `CodeExtractor::is_no_std_code`. -/
def no_std_indicators : List String :=
  ["heapless::", "nb::", "cortex_m", "embedded_hal",
   "panic_halt", "panic_abort", "panic_semihosting",
   "#[no_mangle]", "extern \"C\"", "core::", "alloc::"]

/-- The minimal-runtime import indicators of `is_no_std_code`. -/
def hasNoStdIndicators (code : String) : Bool :=
  no_std_indicators.any (fun indicator => strContains code indicator)

/-- The full-runtime indicators of `is_no_std_code`
(`std::` imports, `println!` calls, a `main()` entry). -/
def hasStdIndicators (code : String) : Bool :=
  strContains code "std::" || strContains code "println!" || strContains code "main()"

/-- `CodeExtractor::is_no_std_code`: an explicit attribute returns `true`
immediately; otherwise minimal-runtime indicators without std indicators. -/
def is_no_std_code (code : String) : Bool :=
  if hasExplicitNoStdAttr code then true
  else hasNoStdIndicators code && !hasStdIndicators code

/-- `CodeExtractor::is_snippet_code`: the structural snippet heuristic.
`code.len()` is the UTF-8 byte length. -/
def is_snippet_code (code : String) : Bool :=
  let code := rustTrim code
  if code = "" || utf8Len code < 10 then true
  else
    let has_main := strContains code "fn main" || strContains code "fn main()"
    let has_entry := strContains code "#[entry]" || strContains code "cortex_m_rt::entry"
    let has_test := strContains code "#[test]"
    let has_function := strContains code "fn " && !strStartsWith code "fn "
    let has_struct_impl := strContains code "struct " || strContains code "impl "
    if has_main || has_entry || has_test || has_function || has_struct_impl then false
    else
      (strStartsWith code "let " && !strContains code "fn ") ||
      ((rustLines code).length ≤ 3 && !strContains code "\x7b" && !strContains code "\x7d") ||
      ((rustLines code).all (fun line => strStartsWith (rustTrim line) "//" || rustTrim line = "")) ||
      (strContains code "..." || strContains code "// ...")

/-- The `snippet` annotation's reason, defaulting to `"incomplete code"`
(`annotations.get("snippet").and_then(as_ref).unwrap_or(...)`). -/
def snippetReason (ann : Annotations) : String :=
  match annGet ann "snippet" with
  | some (some s) => s
  | _ => "incomplete code"

/-- The `target=` annotation's value, defaulting to the embedded triple
(`annotations.get("target").and_then(as_ref).unwrap_or(...)`). -/
def targetAnn (ann : Annotations) : String :=
  match annGet ann "target" with
  | some (some t) => t
  | _ => "thumbv7em-none-eabihf"

/-- The `algorithm=` annotation's value, falling back to content detection
(`annotations.get("algorithm").and_then(as_ref).cloned().or_else(...)`). -/
def algorithmAnn (ann : Annotations) (code : String) : Option String :=
  match annGet ann "algorithm" with
  | some (some a) => some a
  | _ => detect_crypto_algorithm code

/-- `CodeExtractor::infer_context`: explicit annotations first
(`snippet`, `hardware` with a value, `no_std`, `crypto`), then the content
heuristics (no_std, hardware, crypto, snippet), defaulting to `Std`. -/
def infer_context (ann : Annotations) (code : String) : ExampleContext :=
  if annContainsKey ann "snippet" then
    .Snippet (snippetReason ann)
  else
    match annGet ann "hardware" with
    | some (some platform) => .Hardware platform (extract_features ann)
    | _ =>
      if annContainsKey ann "no_std" then
        .NoStd (targetAnn ann) (extract_features ann)
      else if annContainsKey ann "crypto" then
        .Crypto (algorithmAnn ann code) (extract_features ann)
      else if is_no_std_code code then
        .NoStd (targetAnn ann) (extract_features ann)
      else if is_hardware_code code then
        .Hardware ((detect_hardware_platform code).getD "generic") (extract_features ann)
      else if is_crypto_code code then
        .Crypto (detect_crypto_algorithm code) (extract_features ann)
      else if is_snippet_code code then
        .Snippet "appears to be incomplete code"
      else
        .Std (extract_features ann)

/-! ## `dependency_resolver.rs` -/

/-- `Dependency` (`dependency_resolver.rs`). -/
structure Dependency where
  name : String
  version : String
  features : List String
  optional : Bool
  target : Option String
  default_features : Bool
deriving Repr, DecidableEq

/-- `Dependency::new`: a version-only dependency with default features. -/
def Dependency.mk' (name version : String) : Dependency :=
  { name, version, features := [], optional := false, target := none
    default_features := true }

/-- `DependencyInfo` (`dependency_resolver.rs`): catalog metadata.
`default_features` maps a context tag to a feature list. -/
structure DependencyInfo where
  version : String
  default_features : List (String × List String)
  no_default_features : Bool
  targets : List String

/-- The static dependency catalog built by `DependencyResolver::new`. -/
def dependency_catalog : List (String × DependencyInfo) :=
  [("heapless",
    { version := "0.8", default_features := [], no_default_features := false
      targets := ["thumbv*"] }),
   ("cortex-m",
    { version := "0.7", default_features := [], no_default_features := false
      targets := ["thumbv*"] }),
   ("cortex-m-rt",
    { version := "0.7", default_features := [], no_default_features := false
      targets := ["thumbv*"] }),
   ("embedded-hal",
    { version := "1.0", default_features := [], no_default_features := false
      targets := ["thumbv*"] }),
   ("panic-halt",
    { version := "0.2", default_features := [], no_default_features := false
      targets := ["thumbv*"] }),
   ("panic-abort",
    { version := "0.3", default_features := [], no_default_features := false
      targets := ["thumbv*"] }),
   ("zeroize",
    { version := "1.7"
      default_features := [("std", ["derive"]), ("crypto", ["derive"])]
      no_default_features := false, targets := [] }),
   ("aes",
    { version := "0.8", default_features := [], no_default_features := true
      targets := [] }),
   ("sha2",
    { version := "0.10", default_features := [], no_default_features := true
      targets := [] }),
   ("chacha20",
    { version := "0.9", default_features := [], no_default_features := true
      targets := [] }),
   ("ed25519-dalek",
    { version := "2.0", default_features := [], no_default_features := true
      targets := [] }),
   ("rand",
    { version := "0.8"
      default_features := [("std", ["std"]), ("no_std", ["small_rng"])]
      no_default_features := false, targets := [] }),
   ("rand_core",
    { version := "0.6", default_features := [], no_default_features := true
      targets := [] }),
   ("stm32f4xx-hal",
    { version := "0.19", default_features := [("hardware", ["stm32f407"])]
      no_default_features := false, targets := ["thumbv7em-none-eabihf"] }),
   ("stm32f3xx-hal",
    { version := "0.10", default_features := [("hardware", ["stm32f303xc"])]
      no_default_features := false, targets := ["thumbv7em-none-eabihf"] }),
   ("nrf52840-hal",
    { version := "0.16", default_features := [], no_default_features := false
      targets := ["thumbv7em-none-eabihf"] })]

/-- `HashMap::get` on the catalog. -/
def catalogGet (name : String) : Option DependencyInfo :=
  (dependency_catalog.find? (fun p => p.1 = name)).map Prod.snd

/-- `HashMap::get` on a `DependencyInfo`'s per-context feature table. -/
def infoFeaturesGet (info : DependencyInfo) (ctx : String) : Option (List String) :=
  (info.default_features.find? (fun p => p.1 = ctx)).map Prod.snd

/-- `DependencyResolver::extract_crate_name_from_use`. -/
def extract_crate_name_from_use (use_line : String) : Option String :=
  if strStartsWith use_line "use " then
    let use_content := strDrop use_line 4
    let first_part := String.mk (charsBefore "::".toList use_content.toList)
    match (rustSplitWhitespace first_part).head? with
    | none => none
    | some crate_name =>
      let crate_name := trimEndSemicolons crate_name
      let normalized_name := strReplaceChar crate_name '_' '-'
      if normalized_name = "std" || normalized_name = "core" ||
         normalized_name = "alloc" || normalized_name = "self" ||
         normalized_name = "super" || normalized_name = "crate" then none
      else some normalized_name
  else none

/-- `DependencyResolver::detect_implicit_dependencies`. -/
def detect_implicit_dependencies (code : String) : List String :=
  (if strContains code "#[panic_handler]" || strContains code "panic_halt"
   then ["panic-halt"] else []) ++
  (if strContains code "panic_abort" then ["panic-abort"] else []) ++
  (if strContains code "#[entry]" || strContains code "cortex_m_rt::entry"
   then ["cortex-m-rt"] else []) ++
  (if strContains code "embedded_hal" then ["embedded-hal"] else []) ++
  (if strContains code "stm32f4" || strContains code "STM32F4"
   then ["stm32f4xx-hal"] else []) ++
  (if strContains code "stm32f3" || strContains code "STM32F3"
   then ["stm32f3xx-hal"] else []) ++
  (if strContains code "nrf52" || strContains code "NRF52"
   then ["nrf52840-hal"] else []) ++
  (if strContains code "Aes" || strContains code "aes::" then ["aes"] else []) ++
  (if strContains code "Sha" || strContains code "sha2::" then ["sha2"] else []) ++
  (if strContains code "ChaCha" || strContains code "chacha20::"
   then ["chacha20"] else []) ++
  (if strContains code "Ed25519" || strContains code "ed25519"
   then ["ed25519-dalek"] else []) ++
  (if strContains code "rand::" || strContains code "Rng" then ["rand"] else []) ++
  (if strContains code "rand_core::" || strContains code "RngCore"
   then ["rand_core"] else [])

/-- One line's contribution in `detect_dependencies_from_code`:
`use` statements (excluding `std`/`core`/`alloc`) and `extern crate`. -/
def detectLineDeps (line : String) : List String :=
  let line := rustTrim line
  (if strStartsWith line "use " && !strStartsWith line "use std::" &&
      !strStartsWith line "use core::" && !strStartsWith line "use alloc::" then
     match extract_crate_name_from_use line with
     | some crate_name => [crate_name]
     | none => []
   else []) ++
  (if strStartsWith line "extern crate " then
     let rest := strDrop line 13
     let crate_name := trimEndSemicolons ((rustSplitWhitespace rest).headD "")
     if crate_name ≠ "" then [crate_name] else []
   else [])

/-- `DependencyResolver::detect_dependencies_from_code`. -/
def detect_dependencies_from_code (code : String) : List String :=
  let dependencies := ((rustLines code).map detectLineDeps).flatten
  let dependencies := dependencies ++ detect_implicit_dependencies code
  dedupAdjacent (sortStrings dependencies)

/-- The per-name body of the loop in
`DependencyResolver::resolve_dependencies`: `none` when the name is skipped
(a catalogued dependency of a `Snippet` example). -/
def resolveOneDependency (context : ExampleContext) (dep_name : String) :
    Option Dependency :=
  match catalogGet dep_name with
  | some dep_info =>
    let dependency := Dependency.mk' dep_name dep_info.version
    match context with
    | .Std features =>
      let dependency :=
        { dependency with features := (infoFeaturesGet dep_info "std").getD [] }
      some { dependency with
             features := dedupAdjacent (sortStrings (dependency.features ++ features)) }
    | .NoStd target features =>
      let dependency :=
        { dependency with features := (infoFeaturesGet dep_info "no_std").getD [] }
      let dependency :=
        if dep_info.no_default_features then { dependency with default_features := false }
        else dependency
      let dependency :=
        if dep_info.targets ≠ [] then { dependency with target := some target }
        else dependency
      some { dependency with
             features := dedupAdjacent (sortStrings (dependency.features ++ features)) }
    | .Hardware _ features =>
      let dependency :=
        { dependency with features := (infoFeaturesGet dep_info "hardware").getD [] }
      let dependency :=
        if dep_info.no_default_features then { dependency with default_features := false }
        else dependency
      some { dependency with
             features := dedupAdjacent (sortStrings (dependency.features ++ features)) }
    | .Crypto _ features =>
      let dependency :=
        { dependency with features := (infoFeaturesGet dep_info "crypto").getD [] }
      let dependency :=
        if dep_info.no_default_features then { dependency with default_features := false }
        else dependency
      some { dependency with
             features := dedupAdjacent (sortStrings (dependency.features ++ features)) }
    | .Snippet _ => none
  | none =>
    let dependency := Dependency.mk' dep_name "1.0"
    let dependency :=
      match context with
      | .NoStd _ _ => { dependency with default_features := false }
      | .Hardware _ _ => { dependency with default_features := false }
      | _ => dependency
    some dependency

/-- The `seen`-guarded fold of `resolve_dependencies` over detected names. -/
def resolveLoop (context : ExampleContext) :
    List String → List String → List Dependency
  | _, [] => []
  | seen, dep_name :: rest =>
    if listContains seen dep_name then resolveLoop context seen rest
    else
      match resolveOneDependency context dep_name with
      | some dependency => dependency :: resolveLoop context (dep_name :: seen) rest
      | none => resolveLoop context (dep_name :: seen) rest

/-- `DependencyResolver::resolve_dependencies`. -/
def resolve_dependencies (ex : CodeExample) : List Dependency :=
  resolveLoop ex.context [] (detect_dependencies_from_code ex.code)

/-! ## `example_tester.rs`

The `cargo` subprocess is abstracted: a `SpawnedProcess` records how long the
invocation runs (milliseconds) and what it produces, and `test_example` is
parametrised by the toolchain's answers.  Each orchestration function also
returns the number of compiler-driver invocations it performed, so "never
triggers a toolchain invocation" is statable. -/

/-- The observable behaviour of one spawned compiler-driver process:
wall-clock running time until exit, and its collected output. -/
structure SpawnedProcess where
  duration : Nat
  status_success : Bool
  exit_code : Option Int
  stdout : String
  stderr : String
deriving Repr, DecidableEq

/-- `RustExampleTester::run_with_timeout`.  The source waits for the child
to exit (`wait_with_output`) and only then compares the elapsed time with
the timeout, so the first component — the wall-clock time consumed before
returning — is always the process's full duration, and `TimeoutError` is
returned only after the process has already completed.  A spawn failure
(`Err` input) becomes `IoError`. -/
def run_with_timeout (spawn : Except String SpawnedProcess) (timeout : Nat) :
    Nat × Except CompilationError SpawnedProcess :=
  match spawn with
  | .error e => (0, .error (.IoError ("Failed to spawn process: " ++ e)))
  | .ok child =>
    let elapsed := child.duration
    if elapsed > timeout then (elapsed, .error (.TimeoutError timeout))
    else (elapsed, .ok child)

/-- `RustExampleTester::extract_warnings`. -/
def extract_warnings (stderr : String) : List String :=
  (rustLines stderr).filter (fun line => strContains line "warning:")

/-- `RustExampleTester::parse_compilation_error`. -/
def parse_compilation_error (stderr : String) (exit_code : Option Int) :
    CompilationError :=
  if strContains stderr "error[E" then
    .SyntaxError ((rustLines stderr).headD "Unknown syntax error") none none
  else if strContains stderr "could not find" && strContains stderr "Cargo.toml" then
    .DependencyError ["Unknown dependency"]
  else
    .CompilationFailed (exit_code.getD (-1)) stderr

/-- The synthetic result `test_example` returns for a `Snippet` example:
success tagged `"skipped"`, no error, no toolchain contact. -/
def snippetSkipResult (example_id : String) : TestResult :=
  { example_id
    success := true
    compilation_time := 0
    target := "skipped"
    error := none
    warnings := []
    stdout := "Skipped (marked as snippet)"
    stderr := "" }

/-- `RustExampleTester::test_example_with_target`, with the single `cargo
check` invocation abstracted as `compileFn` (per example and target). Second
component: number of compiler invocations performed. -/
def test_example_with_target
    (compileFn : CodeExample → String → Except String SpawnedProcess)
    (config : TestConfig) (ex : CodeExample) (target : String) :
    TestResult × Nat :=
  if !ex.context.should_compile then (snippetSkipResult ex.id, 0)
  else
    let (elapsed, outcome) :=
      run_with_timeout (compileFn ex target) config.compilation_timeout
    match outcome with
    | .ok child =>
      if child.status_success then
        ({ example_id := ex.id
           success := true
           compilation_time := elapsed
           target := target
           error := none
           warnings := extract_warnings child.stderr
           stdout := child.stdout
           stderr := child.stderr }, 1)
      else
        (TestResult.mkFailure ex.id target elapsed
          (parse_compilation_error child.stderr child.exit_code) "", 1)
    | .error error => (TestResult.mkFailure ex.id target elapsed error "", 1)

/-- `RustExampleTester::test_example`: snippets short-circuit to the
synthetic `"skipped"` success, then the first available target is tried.
`availableTargets` abstracts `ToolchainManager::get_available_targets`. -/
def test_example (availableTargets : List String)
    (compileFn : CodeExample → String → Except String SpawnedProcess)
    (config : TestConfig) (ex : CodeExample) : TestResult × Nat :=
  if !ex.context.should_compile then (snippetSkipResult ex.id, 0)
  else
    match availableTargets with
    | [] =>
      (TestResult.mkFailure ex.id "none" 0
        (.TargetError "none" "No compatible targets available")
        "No targets available for testing", 0)
    | target :: _ => test_example_with_target compileFn config ex target

/-! ## `bin/rust_example_tester.rs` — the result cache -/

/-- `CachedTestResult` (`bin/rust_example_tester.rs`). -/
structure CachedTestResult where
  example_id : String
  success : Bool
  compilation_time_ms : Nat
  target : String
  error : Option String
  warnings_count : Nat
deriving Repr, DecidableEq

/-- `CacheEntry` (`bin/rust_example_tester.rs`): content hash, Unix
modification time (seconds), and the cached result summary. -/
structure CacheEntry where
  content_hash : String
  modified_time : Nat
  result : CachedTestResult
deriving Repr, DecidableEq

/-- The cache key `"<source_path>:<fragment_id>"`. -/
def cacheKey (ex : CodeExample) : String :=
  ex.source_file ++ ":" ++ ex.id

/-- `HashMap::get` on the cache. -/
def cacheGet (cache : List (String × CacheEntry)) (key : String) :
    Option CacheEntry :=
  (cache.find? (fun p => p.1 = key)).map Prod.snd

/-- `filter_changed_examples` (`bin/rust_example_tester.rs`): keep an
example for re-testing when there is no cache entry, the stored content
hash differs from the current hash, or the stored modification time is
STRICTLY OLDER than the file's current one (`cached.modified_time <
current_time` in the source).  `hashFn` abstracts `calculate_content_hash`
and `mtimeFn` abstracts a successful `get_file_modified_time` (its `Err`
path aborts the whole run and never reaches the hit/miss decision). -/
def filter_changed_examples (examples : List CodeExample)
    (cache : List (String × CacheEntry))
    (hashFn : String → String) (mtimeFn : String → Nat) : List CodeExample :=
  examples.filter (fun ex =>
    match cacheGet cache (cacheKey ex) with
    | some cached =>
        cached.content_hash ≠ hashFn ex.code ||
        cached.modified_time < mtimeFn ex.source_file
    | none => true)

/-! ## `error_recovery.rs` -/

/-- `RecoveryAction` (`error_recovery.rs`). -/
inductive RecoveryAction where
  | Retry (config : TestConfig) (reason : String)
  | Skip (reason : String)
  | Fallback (target : String) (disable_features : List String)
  | MarkAsSnippet (reason : String)
  | Abort (message : String)
deriving Repr, DecidableEq

/-- `ErrorRecoveryManager` (`error_recovery.rs`); the recovery cache is an
association list with first-match lookup. -/
structure ErrorRecoveryManager where
  max_retries : Nat
  fallback_targets : List String
  optional_features : List String
  recovery_cache : List (String × RecoveryAction)

/-- `ErrorRecoveryManager::default()`: `max_retries = 3`. -/
def ErrorRecoveryManager.default : ErrorRecoveryManager :=
  { max_retries := 3
    fallback_targets :=
      ["x86_64-unknown-linux-gnu", "thumbv7em-none-eabihf", "thumbv6m-none-eabi"]
    optional_features := ["hardware", "crypto-hardware", "advanced"]
    recovery_cache := [] }

/-- `HashMap::get` on the recovery cache. -/
def recoveryCacheGet (cache : List (String × RecoveryAction)) (key : String) :
    Option RecoveryAction :=
  (cache.find? (fun p => p.1 = key)).map Prod.snd

/-- `ErrorRecoveryManager::is_likely_snippet`. -/
def is_likely_snippet (code : String) : Bool :=
  let trimmed := rustTrim code
  if strStartsWith trimmed "let " || strStartsWith trimmed "const " ||
     strStartsWith trimmed "//" || strStartsWith trimmed "use " ||
     strStartsWith trimmed "impl " || strStartsWith trimmed "struct " ||
     strStartsWith trimmed "enum " then true
  else if !strContains trimmed "fn main" && !strContains trimmed "mod " &&
          !strContains trimmed "#[no_mangle]" && !strContains trimmed "#[entry]" then
    true
  else false

/-- `ErrorRecoveryManager::get_target_incompatible_features`. -/
def get_target_incompatible_features (target : String) : List String :=
  if target = "x86_64-unknown-linux-gnu" then ["embedded", "hardware"]
  else if target = "thumbv7em-none-eabihf" || target = "thumbv6m-none-eabi" then ["std"]
  else []

/-- `ErrorRecoveryManager::handle_syntax_error`. -/
def handle_syntax_error (m : ErrorRecoveryManager) (message : String)
    (line column : Option Nat) (ex : CodeExample) (retry_count : Nat) :
    RecoveryAction :=
  if is_likely_snippet ex.code then
    .MarkAsSnippet ("Syntax error suggests incomplete code snippet: " ++ message)
  else if strContains message "expected item" ||
          strContains message "unexpected end of file" ||
          strContains message "expected `fn`, `mod`, `struct`" then
    .MarkAsSnippet "Code appears to be a fragment rather than complete example"
  else if retry_count ≥ m.max_retries then
    .Skip ("Syntax error persists after " ++ toString retry_count ++
           " retries: " ++ message)
  else
    .Skip ("Syntax error at line " ++ optNatDebug line ++ ", column " ++
           optNatDebug column ++ ": " ++ message)

/-- The feature-adding fold in `handle_dependency_error`: for each missing
name, add the coarse `embedded` / `crypto` feature buckets when absent. -/
def addDependencyFeatures (missing : List String) (features : List String) :
    List String :=
  missing.foldl (fun features dep =>
    let features :=
      if (strContains dep "embedded" || strContains dep "cortex" ||
          strContains dep "hal") && !listContains features "embedded" then
        features ++ ["embedded"]
      else features
    if (strContains dep "crypto" || strContains dep "aes" ||
        strContains dep "sha") && !listContains features "crypto" then
      features ++ ["crypto"]
    else features) features

/-- `ErrorRecoveryManager::handle_dependency_error`. -/
def handle_dependency_error (m : ErrorRecoveryManager) (missing : List String)
    (config : TestConfig) (retry_count : Nat) : RecoveryAction :=
  if retry_count ≥ m.max_retries then
    .Skip ("Missing dependencies after " ++ toString retry_count ++
           " retries: " ++ strJoin ", " missing)
  else
    .Retry { config with features := addDependencyFeatures missing config.features }
      ("Adding features to resolve missing dependencies: " ++
       strJoin ", " missing)

/-- `ErrorRecoveryManager::handle_feature_error`. -/
def handle_feature_error (m : ErrorRecoveryManager) (unsupported : List String)
    (config : TestConfig) (retry_count : Nat) : RecoveryAction :=
  let can_disable := unsupported.filter (fun f => listContains m.optional_features f)
  if can_disable ≠ [] && retry_count < m.max_retries then
    .Retry { config with
             features := config.features.filter (fun f => !listContains can_disable f) }
      ("Disabling optional features: " ++ strJoin ", " can_disable)
  else
    .Skip ("Unsupported features required: " ++ strJoin ", " unsupported)

/-- The fallback-target search loop in `handle_target_error`. -/
def findFallbackTarget (m : ErrorRecoveryManager) (incompatible_target : String)
    (config : TestConfig) (retry_count : Nat) :
    List String → Option String
  | [] => none
  | fallback_target :: rest =>
    if fallback_target ≠ incompatible_target &&
       !listContains config.targets fallback_target &&
       retry_count < m.max_retries then
      some fallback_target
    else findFallbackTarget m incompatible_target config retry_count rest

/-- `ErrorRecoveryManager::handle_target_error`. -/
def handle_target_error (m : ErrorRecoveryManager)
    (incompatible_target reason : String) (config : TestConfig)
    (retry_count : Nat) : RecoveryAction :=
  match findFallbackTarget m incompatible_target config retry_count
      m.fallback_targets with
  | some fallback_target =>
    .Fallback fallback_target (get_target_incompatible_features fallback_target)
  | none => .Skip ("No compatible target found. Original error: " ++ reason)

/-- `ErrorRecoveryManager::handle_timeout_error`: below `max_retries`,
retry with a default configuration whose timeout is the doubled duration;
otherwise skip.  Durations are rendered in milliseconds. -/
def handle_timeout_error (m : ErrorRecoveryManager) (duration : Nat)
    (retry_count : Nat) : RecoveryAction :=
  if retry_count < m.max_retries then
    .Retry { TestConfig.default with compilation_timeout := duration * 2 }
      ("Increasing timeout from " ++ toString duration ++ "ms to " ++
       toString (duration * 2) ++ "ms")
  else
    .Skip ("Compilation timeout after " ++ toString duration ++ "ms (tried " ++
           toString retry_count ++ " times)")

/-- `ErrorRecoveryManager::handle_compilation_failure`. -/
def handle_compilation_failure (m : ErrorRecoveryManager) (exit_code : Int)
    (message : String) (retry_count : Nat) : RecoveryAction :=
  if strContains message "cannot find function `main`" ||
     strContains message "binary target" then
    .MarkAsSnippet "Code appears to be a library snippet without main function"
  else if (strContains message "linker" || strContains message "undefined reference") &&
          retry_count < m.max_retries then
    .Fallback "x86_64-unknown-linux-gnu" ["embedded"]
  else
    .Skip ("Compilation failed (exit code " ++ toString exit_code ++ "): " ++ message)

/-- `ErrorRecoveryManager::handle_io_error`. -/
def handle_io_error (m : ErrorRecoveryManager) (message : String)
    (retry_count : Nat) : RecoveryAction :=
  if retry_count < m.max_retries then
    .Retry TestConfig.default ("Retrying after I/O error: " ++ message)
  else
    .Skip ("Persistent I/O error: " ++ message)

/-- `ErrorRecoveryManager::error_cache_key`: the error variant, a message
prefix (first 50 chars for syntax errors), and the `Debug`-rendered
profile.  Note that `TimeoutError` and `IoError` keys ignore the payload
entirely. -/
def error_cache_key (error : CompilationError) (context : ExampleContext) :
    String :=
  match error with
  | .SyntaxError message _ _ =>
      "syntax:" ++ strTake message 50 ++ ":" ++ contextDebug context
  | .DependencyError missing =>
      "deps:" ++ strJoin "," missing ++ ":" ++ contextDebug context
  | .FeatureError unsupported =>
      "features:" ++ strJoin "," unsupported ++ ":" ++ contextDebug context
  | .TargetError incompatible_target _ =>
      "target:" ++ incompatible_target ++ ":" ++ contextDebug context
  | .TimeoutError _ => "timeout:" ++ contextDebug context
  | .CompilationFailed exit_code _ =>
      "failed:" ++ toString exit_code ++ ":" ++ contextDebug context
  | .IoError _ => "io:" ++ contextDebug context

/-- The fresh (cache-miss) decision of `determine_recovery_action`:
dispatch on the error variant to the per-variant handler. -/
def freshRecoveryAction (m : ErrorRecoveryManager) (error : CompilationError)
    (ex : CodeExample) (config : TestConfig) (retry_count : Nat) :
    RecoveryAction :=
  match error with
  | .SyntaxError message line column =>
      handle_syntax_error m message line column ex retry_count
  | .DependencyError missing =>
      handle_dependency_error m missing config retry_count
  | .FeatureError unsupported =>
      handle_feature_error m unsupported config retry_count
  | .TargetError incompatible_target reason =>
      handle_target_error m incompatible_target reason config retry_count
  | .TimeoutError duration => handle_timeout_error m duration retry_count
  | .CompilationFailed exit_code message =>
      handle_compilation_failure m exit_code message retry_count
  | .IoError message => handle_io_error m message retry_count

/-- `ErrorRecoveryManager::determine_recovery_action`: a cached decision for
the error signature is returned as-is (whatever the current `retry_count`);
otherwise the per-variant handler decides and the decision is cached.
Returns the action together with the updated manager. -/
def determine_recovery_action (m : ErrorRecoveryManager)
    (error : CompilationError) (ex : CodeExample) (config : TestConfig)
    (retry_count : Nat) : RecoveryAction × ErrorRecoveryManager :=
  let error_key := error_cache_key error ex.context
  match recoveryCacheGet m.recovery_cache error_key with
  | some cached_action => (cached_action, m)
  | none =>
    let action := freshRecoveryAction m error ex config retry_count
    (action, { m with recovery_cache := (error_key, action) :: m.recovery_cache })

/-- `DegradationStrategy` (`error_recovery.rs`). -/
inductive DegradationStrategy where
  | SkipComplexExamples
  | DisableHardwareTesting
  | SyntaxOnlyValidation
  | ReduceTimeout
  | SkipEmbeddedTargets
deriving Repr, DecidableEq

/-- `GracefulDegradationManager` (`error_recovery.rs`).  The `f64` failure
rate is embedded as an exact rational; every comparison the claims exercise
is far from any binary-representation boundary. -/
structure GracefulDegradationManager where
  failure_threshold : ℚ
  current_failure_rate : ℚ
  degraded_mode : Bool
  degradation_strategies : List DegradationStrategy

/-- `GracefulDegradationManager::default()`: threshold `0.5`, not degraded. -/
def GracefulDegradationManager.default : GracefulDegradationManager :=
  { failure_threshold := 1/2
    current_failure_rate := 0
    degraded_mode := false
    degradation_strategies :=
      [.SkipComplexExamples, .DisableHardwareTesting, .SyntaxOnlyValidation] }

/-- `GracefulDegradationManager::update_failure_rate`: for `total > 0` set
the rate to `1 - successful/total`; cross above the threshold while not
degraded to enter degraded mode, drop below half the threshold while
degraded to exit. -/
def update_failure_rate (m : GracefulDegradationManager)
    (successful total : Nat) : GracefulDegradationManager :=
  if total > 0 then
    let rate : ℚ := 1 - (successful : ℚ) / (total : ℚ)
    let m := { m with current_failure_rate := rate }
    if rate > m.failure_threshold ∧ m.degraded_mode = false then
      { m with degraded_mode := true }
    else if rate < m.failure_threshold * (1/2) ∧ m.degraded_mode = true then
      { m with degraded_mode := false }
    else m
  else m

/-! ## Report operation sequences

The three mutating operations a `ValidationReport` is built from, so that
run-level invariants can be stated over arbitrary operation sequences. -/

/-- One mutating operation on a `ValidationReport`. -/
inductive ReportOp where
  | add (result : TestResult)
  | skipEx (example_id reason : String)
  | markSnippet (example_id reason : String)

/-- Apply one `ReportOp`. -/
def applyReportOp (r : ValidationReport) : ReportOp → ValidationReport
  | .add result => r.add_result result
  | .skipEx example_id reason => r.skip_example example_id reason
  | .markSnippet example_id reason => r.mark_as_snippet example_id reason

/-- Apply a sequence of `ReportOp`s, oldest first. -/
def applyReportOps (r : ValidationReport) (ops : List ReportOp) :
    ValidationReport :=
  ops.foldl applyReportOp r

/-! ## Concrete fixtures used by witnesses and counterexamples -/

/-- A concrete `Std`-profile example (used with recovery-manager calls). -/
def exStd : CodeExample :=
  { id := "ex_std", source_file := "doc.md", line_number := 1
    code := "fn main() \x7b let x = 1; \x7d"
    context := .Std []
    annotations := [], dependencies := [] }

/-- A concrete `Snippet`-profile example whose code imports a crate absent
from the static catalog. -/
def exSnipUnknown : CodeExample :=
  { id := "ex_snip", source_file := "doc.md", line_number := 5
    code := "use some_unknown_crate::Thing;"
    context := .Snippet "incomplete"
    annotations := [], dependencies := [] }

/-- A concrete cache with one entry for `exStd`, stored at modification
time 100 with hash `"h"`. -/
def staleCache : List (String × CacheEntry) :=
  [(cacheKey exStd,
    { content_hash := "h", modified_time := 100
      result := { example_id := "ex_std", success := true
                  compilation_time_ms := 5, target := "x86_64-unknown-linux-gnu"
                  error := none, warnings_count := 0 } })]

/-! # Theorems -/

/-- C10: `mark_as_snippet` appends a result with `success = true`, target
`"snippet"` and no error, while `skip_example` appends a result with
`success = false`, target `"skipped"` and a synthetic `CompilationFailed`
error of exit code 0 — so snippet-marked fragments look successful in their
per-result flag and skipped fragments look like failures. -/
theorem mark_and_skip_append_expected_results (r : ValidationReport)
    (example_id reason : String) :
    (r.mark_as_snippet example_id reason).results =
      r.results ++
        [{ example_id
           success := true
           compilation_time := 0
           target := "snippet"
           error := none
           warnings := []
           stdout := "Marked as snippet: " ++ reason
           stderr := "" }] ∧
    (r.skip_example example_id reason).results =
      r.results ++
        [{ example_id
           success := false
           compilation_time := 0
           target := "skipped"
           error := some (.CompilationFailed 0 ("Skipped: " ++ reason))
           warnings := []
           stdout := ""
           stderr := "" }] :=
  ⟨rfl, rfl⟩

/-- One step of the C9 counting invariant: each of the three report
operations adds exactly one result and bumps exactly one counter. -/
theorem reportOp_preserves_counts (r : ValidationReport) (op : ReportOp)
    (h1 : r.total_examples = r.successful + r.failed + r.skipped + r.snippets)
    (h2 : r.total_examples = r.results.length) :
    (applyReportOp r op).total_examples =
      (applyReportOp r op).successful + (applyReportOp r op).failed +
      (applyReportOp r op).skipped + (applyReportOp r op).snippets ∧
    (applyReportOp r op).total_examples = (applyReportOp r op).results.length := by
  cases op with
  | add result =>
    by_cases hs : result.success <;>
      simp [applyReportOp, ValidationReport.add_result, hs] <;> omega
  | skipEx example_id reason =>
    simp [applyReportOp, ValidationReport.skip_example]; omega
  | markSnippet example_id reason =>
    simp [applyReportOp, ValidationReport.mark_as_snippet]; omega

/-- The C9 invariant is preserved by a whole operation sequence. -/
theorem reportOps_preserve_counts (ops : List ReportOp) :
    ∀ r : ValidationReport,
      r.total_examples = r.successful + r.failed + r.skipped + r.snippets →
      r.total_examples = r.results.length →
      (applyReportOps r ops).total_examples =
        (applyReportOps r ops).successful + (applyReportOps r ops).failed +
        (applyReportOps r ops).skipped + (applyReportOps r ops).snippets ∧
      (applyReportOps r ops).total_examples =
        (applyReportOps r ops).results.length := by
  induction ops with
  | nil => intro r h1 h2; exact ⟨h1, h2⟩
  | cons op rest ih =>
    intro r h1 h2
    have step := reportOp_preserves_counts r op h1 h2
    simpa [applyReportOps, List.foldl_cons] using ih (applyReportOp r op) step.1 step.2

/-- C9: every `ValidationReport` reachable from the empty report by
`add_result` / `skip_example` / `mark_as_snippet` operations satisfies
`total_examples = successful + failed + skipped + snippets` and
`total_examples = results.length`. -/
theorem report_counts_invariant (ops : List ReportOp) :
    (applyReportOps ValidationReport.new ops).total_examples =
      (applyReportOps ValidationReport.new ops).successful +
      (applyReportOps ValidationReport.new ops).failed +
      (applyReportOps ValidationReport.new ops).skipped +
      (applyReportOps ValidationReport.new ops).snippets ∧
    (applyReportOps ValidationReport.new ops).total_examples =
      (applyReportOps ValidationReport.new ops).results.length :=
  reportOps_preserve_counts ops ValidationReport.new rfl rfl

/-- C3: when the compiler-driver invocation runs longer than the configured
timeout, `run_with_timeout` does return `TimeoutError` — but only after the
subprocess has already run to completion: the wall-clock time consumed (the
first component) is the process's full duration, which exceeds the timeout,
so the subprocess is never terminated at expiry. -/
theorem run_with_timeout_waits_out_overlong_process (proc : SpawnedProcess)
    (timeout : Nat) (h : timeout < proc.duration) :
    run_with_timeout (.ok proc) timeout =
      (proc.duration, .error (.TimeoutError timeout)) := by
  simp [run_with_timeout, h]

/-- Witness for C3: a 60 s `cargo check` under a 30 s timeout yields
`TimeoutError` only after the full 60 s have elapsed. -/
theorem run_with_timeout_waits_out_overlong_process_witness :
    30000 < 60000 ∧
    run_with_timeout
        (.ok { duration := 60000, status_success := true, exit_code := some 0
               stdout := "", stderr := "" }) 30000 =
      (60000, .error (.TimeoutError 30000)) :=
  ⟨by norm_num,
   run_with_timeout_waits_out_overlong_process
     { duration := 60000, status_success := true, exit_code := some 0
       stdout := "", stderr := "" } 30000 (by norm_num)⟩

/-- C6: for `total > 0`, `update_failure_rate` sets the rolling rate to
`1 - successful/total`; while not degraded it enters degraded mode exactly
when the rate exceeds the threshold, and while degraded it exits exactly
when the rate drops below half the threshold.  Concretely, 2 successes out
of 10 enter degraded mode (0.8 > 0.5) and a subsequent 8 out of 10 exit it
(0.2 < 0.25). -/
theorem degradation_hysteresis (m : GracefulDegradationManager)
    (successful total : Nat) (h : 0 < total) :
    (update_failure_rate m successful total).current_failure_rate =
      1 - (successful : ℚ) / total ∧
    (m.degraded_mode = false →
      ((update_failure_rate m successful total).degraded_mode = true ↔
        1 - (successful : ℚ) / total > m.failure_threshold)) ∧
    (m.degraded_mode = true →
      ((update_failure_rate m successful total).degraded_mode = false ↔
        1 - (successful : ℚ) / total < m.failure_threshold * (1/2))) ∧
    (update_failure_rate GracefulDegradationManager.default 2 10).degraded_mode
      = true ∧
    (update_failure_rate
        (update_failure_rate GracefulDegradationManager.default 2 10) 8 10
      ).degraded_mode = false := by
  refine ⟨?_, ?_, ?_,
    by norm_num [update_failure_rate, GracefulDegradationManager.default],
    by norm_num [update_failure_rate, GracefulDegradationManager.default]⟩
  · simp only [update_failure_rate, if_pos h]
    split
    · rfl
    · split <;> rfl
  · intro hdeg
    by_cases hr : 1 - (successful : ℚ) / total > m.failure_threshold
    · simp [update_failure_rate, if_pos h, hdeg, hr]
    · simp [update_failure_rate, if_pos h, hdeg, hr]
  · intro hdeg
    by_cases hr2 : 1 - (successful : ℚ) / total < m.failure_threshold * 2⁻¹
    · simp [update_failure_rate, if_pos h, hdeg, one_div, hr2]
    · simp [update_failure_rate, if_pos h, hdeg, one_div, hr2]

/-- Witness for C6: the concrete 2-of-10 / 8-of-10 scenario. -/
theorem degradation_hysteresis_witness :
    (0 : Nat) < 10 ∧
    ((update_failure_rate GracefulDegradationManager.default 2 10
        ).current_failure_rate = 1 - (2 : ℚ) / 10 ∧
     (GracefulDegradationManager.default.degraded_mode = false →
       ((update_failure_rate GracefulDegradationManager.default 2 10
           ).degraded_mode = true ↔
         1 - (2 : ℚ) / 10 > GracefulDegradationManager.default.failure_threshold)) ∧
     (GracefulDegradationManager.default.degraded_mode = true →
       ((update_failure_rate GracefulDegradationManager.default 2 10
           ).degraded_mode = false ↔
         1 - (2 : ℚ) / 10 <
           GracefulDegradationManager.default.failure_threshold * (1/2))) ∧
     (update_failure_rate GracefulDegradationManager.default 2 10).degraded_mode
       = true ∧
     (update_failure_rate
         (update_failure_rate GracefulDegradationManager.default 2 10) 8 10
       ).degraded_mode = false) :=
  ⟨by norm_num, degradation_hysteresis GracefulDegradationManager.default 2 10
    (by norm_num)⟩

/-- Counterexample for C5: a cache entry stored at modification time 100
while the file's current modification time is 50 — the stored time no
longer matches, yet the fragment is NOT re-tested (the source only
re-tests when the stored time is strictly OLDER than the current one). -/
theorem cache_mtime_mismatch_not_retested :
    cacheGet staleCache (cacheKey exStd) =
      some { content_hash := "h", modified_time := 100
             result := { example_id := "ex_std", success := true
                         compilation_time_ms := 5
                         target := "x86_64-unknown-linux-gnu"
                         error := none, warnings_count := 0 } } ∧
    (100 : Nat) ≠ 50 ∧
    filter_changed_examples [exStd] staleCache (fun _ => "h") (fun _ => 50)
      = [] :=
  ⟨rfl, by norm_num, rfl⟩

/-- C5 (amended): a fragment is re-tested iff there is no cache entry under
`"<source_path>:<fragment_id>"`, or the stored content hash differs from
the current one, or the stored modification time is strictly less than the
file's current modification time. -/
theorem filter_changed_examples_spec (examples : List CodeExample)
    (cache : List (String × CacheEntry)) (hashFn : String → String)
    (mtimeFn : String → Nat) (ex : CodeExample) (hmem : ex ∈ examples) :
    ex ∈ filter_changed_examples examples cache hashFn mtimeFn ↔
      (cacheGet cache (cacheKey ex) = none ∨
       ∃ c, cacheGet cache (cacheKey ex) = some c ∧
         (c.content_hash ≠ hashFn ex.code ∨
          c.modified_time < mtimeFn ex.source_file)) := by
  unfold filter_changed_examples
  rw [List.mem_filter]
  cases hc : cacheGet cache (cacheKey ex) with
  | none => simp [hmem, hc]
  | some c => simp [hmem, hc]

/-- Witness for C5: the characterization applied to a singleton run with an
empty cache. -/
theorem filter_changed_examples_spec_witness :
    exStd ∈ [exStd] ∧
    (exStd ∈ filter_changed_examples [exStd] [] (fun _ => "") (fun _ => 0) ↔
      (cacheGet [] (cacheKey exStd) = none ∨
       ∃ c, cacheGet [] (cacheKey exStd) = some c ∧
         (c.content_hash ≠ "" ∨ c.modified_time < 0))) :=
  ⟨List.mem_singleton.mpr rfl,
   filter_changed_examples_spec [exStd] [] (fun _ => "") (fun _ => 0) exStd
     (List.mem_singleton.mpr rfl)⟩

/-- Unfolding of `is_no_std_code`: true iff an explicit runtime-disabling
attribute is present, or minimal-runtime indicators appear without
full-runtime indicators. -/
theorem is_no_std_code_iff (code : String) :
    is_no_std_code code = true ↔
      (hasExplicitNoStdAttr code = true ∨
       (hasNoStdIndicators code = true ∧ hasStdIndicators code = false)) := by
  unfold is_no_std_code
  by_cases h : hasExplicitNoStdAttr code = true
  · simp [h]
  · simp [h]

/-- Counterexample for C4: `"#![no_std]\nprintln!(\"hi\");"` contains a
full-runtime indicator (`println!`), yet the content heuristic classifies
it as the Restricted (`NoStd`) profile — the explicit attribute check in
`is_no_std_code` returns early, without consulting the std indicators. -/
theorem no_std_attr_overrides_std_indicators :
    hasStdIndicators "#![no_std]\nprintln!(\"hi\");" = true ∧
    infer_context [] "#![no_std]\nprintln!(\"hi\");" =
      .NoStd "thumbv7em-none-eabihf" [] :=
  ⟨rfl, rfl⟩

/-- C4 (amended): with no explicit profile annotation, the heuristic
classifies `NoStd` exactly when the code carries an explicit
runtime-disabling attribute (unconditionally), or carries the
minimal-runtime import indicators and no full-runtime indicator. -/
theorem heuristic_no_std_classification (ann : Annotations) (code : String)
    (h1 : annContainsKey ann "snippet" = false)
    (h2 : ∀ p, annGet ann "hardware" ≠ some (some p))
    (h3 : annContainsKey ann "no_std" = false)
    (h4 : annContainsKey ann "crypto" = false) :
    (∃ t f, infer_context ann code = .NoStd t f) ↔
      (hasExplicitNoStdAttr code = true ∨
       (hasNoStdIndicators code = true ∧ hasStdIndicators code = false)) := by
  rw [← is_no_std_code_iff]
  unfold infer_context
  rw [h1]
  cases hh : annGet ann "hardware" with
  | none =>
    simp only [Bool.false_eq_true, if_false, h3, h4]
    by_cases hn : is_no_std_code code = true
    · simp [hn]
    · simp only [hn, Bool.false_eq_true, if_false]
      constructor
      · rintro ⟨t, f, heq⟩
        split at heq
        · exact absurd heq (by simp)
        · split at heq
          · exact absurd heq (by simp)
          · split at heq
            · exact absurd heq (by simp)
            · exact absurd heq (by simp)
      · intro hfalse
        exact absurd hfalse (by simp [hn])
  | some v =>
    cases v with
    | none =>
      simp only [Bool.false_eq_true, if_false, h3, h4]
      by_cases hn : is_no_std_code code = true
      · simp [hn]
      · simp only [hn, Bool.false_eq_true, if_false]
        constructor
        · rintro ⟨t, f, heq⟩
          split at heq
          · exact absurd heq (by simp)
          · split at heq
            · exact absurd heq (by simp)
            · split at heq
              · exact absurd heq (by simp)
              · exact absurd heq (by simp)
        · intro hfalse
          exact absurd hfalse (by simp [hn])
    | some p => exact absurd hh (h2 p)

/-- Witness for C4: empty annotations and the attribute-plus-`println!`
text — the left-to-right direction fires through the explicit attribute. -/
theorem heuristic_no_std_classification_witness :
    annContainsKey [] "snippet" = false ∧
    annContainsKey [] "no_std" = false ∧
    annContainsKey [] "crypto" = false ∧
    ((∃ t f, infer_context [] "#![no_std]\nprintln!(\"hi\");" = .NoStd t f) ↔
      (hasExplicitNoStdAttr "#![no_std]\nprintln!(\"hi\");" = true ∨
       (hasNoStdIndicators "#![no_std]\nprintln!(\"hi\");" = true ∧
        hasStdIndicators "#![no_std]\nprintln!(\"hi\");" = false))) :=
  ⟨rfl, rfl, rfl,
   heuristic_no_std_classification [] "#![no_std]\nprintln!(\"hi\");"
     rfl (fun _ h => Option.noConfusion h) rfl rfl⟩

/-- Counterexample for C7: a bare `hardware` flag (present in the
annotation map, but with no value) does NOT yield the `Hardware` profile —
the explicit-hardware branch requires a value, so classification falls
through to the content heuristics (here: `Snippet`). -/
theorem bare_hardware_flag_not_hardware_profile :
    annContainsKey [("hardware", none)] "hardware" = true ∧
    infer_context [("hardware", none)] "" =
      .Snippet "appears to be incomplete code" :=
  ⟨rfl, rfl⟩

/-- C7 (amended): classification is a total function of the annotation map
and code text, and the explicit annotations are consulted before any
content heuristic, in the order `snippet`, `hardware` (which must carry a
platform value), `no_std`, `crypto`, first match winning. -/
theorem infer_context_explicit_precedence (ann : Annotations) (code : String) :
    (annContainsKey ann "snippet" = true →
      infer_context ann code = .Snippet (snippetReason ann)) ∧
    (∀ p, annContainsKey ann "snippet" = false →
      annGet ann "hardware" = some (some p) →
      infer_context ann code = .Hardware p (extract_features ann)) ∧
    (annContainsKey ann "snippet" = false →
      (∀ p, annGet ann "hardware" ≠ some (some p)) →
      annContainsKey ann "no_std" = true →
      infer_context ann code = .NoStd (targetAnn ann) (extract_features ann)) ∧
    (annContainsKey ann "snippet" = false →
      (∀ p, annGet ann "hardware" ≠ some (some p)) →
      annContainsKey ann "no_std" = false →
      annContainsKey ann "crypto" = true →
      infer_context ann code =
        .Crypto (algorithmAnn ann code) (extract_features ann)) := by
  refine ⟨?_, ?_, ?_, ?_⟩
  · intro h1
    simp [infer_context, h1]
  · intro p h1 hh
    simp [infer_context, h1, hh]
  · intro h1 h2 h3
    cases hh : annGet ann "hardware" with
    | none => simp [infer_context, h1, hh, h3]
    | some v =>
      cases v with
      | none => simp [infer_context, h1, hh, h3]
      | some p => exact absurd hh (h2 p)
  · intro h1 h2 h3 h4
    cases hh : annGet ann "hardware" with
    | none => simp [infer_context, h1, hh, h3, h4]
    | some v =>
      cases v with
      | none => simp [infer_context, h1, hh, h3, h4]
      | some p => exact absurd hh (h2 p)

/-- Witness for C7: the explicit `snippet=incomplete` annotation yields the
`Snippet` profile regardless of the code text. -/
theorem infer_context_explicit_precedence_witness :
    annContainsKey [("snippet", some "incomplete")] "snippet" = true ∧
    infer_context [("snippet", some "incomplete")] "fn main() is irrelevant"
      = .Snippet "incomplete" :=
  ⟨rfl,
   (infer_context_explicit_precedence [("snippet", some "incomplete")]
      "fn main() is irrelevant").1 rfl⟩

/-- Counterexample for C2: a `Snippet`-profile fragment importing a crate
absent from the static catalog — `resolve_dependencies` still returns a
wildcard dependency for it, so the list is NOT empty. -/
theorem snippet_unknown_crate_dependency_not_empty :
    exSnipUnknown.context = .Snippet "incomplete" ∧
    resolve_dependencies exSnipUnknown =
      [{ name := "some-unknown-crate", version := "1.0", features := []
         optional := false, target := none, default_features := true }] ∧
    ([{ name := "some-unknown-crate", version := "1.0", features := []
        optional := false, target := none, default_features := true }] :
      List Dependency) ≠ [] :=
  ⟨rfl, rfl, by simp⟩

/-- For a `Snippet` profile, the per-name resolution step only ever
produces dependencies whose names are absent from the catalog. -/
theorem resolveOneDependency_snippet_uncatalogued (r n : String)
    (dep : Dependency)
    (h : resolveOneDependency (.Snippet r) n = some dep) :
    catalogGet dep.name = none := by
  unfold resolveOneDependency at h
  cases hc : catalogGet n with
  | some info => rw [hc] at h; exact absurd h (by simp)
  | none =>
    rw [hc] at h
    simp only [Option.some.injEq] at h
    subst h
    exact hc

/-- Every dependency the `seen`-guarded loop emits for a `Snippet` profile
is uncatalogued, whatever the name list and `seen` state. -/
theorem resolveLoop_snippet_uncatalogued (r : String) :
    ∀ (names seen : List String) (d : Dependency),
      d ∈ resolveLoop (.Snippet r) seen names → catalogGet d.name = none := by
  intro names
  induction names with
  | nil => intro seen d h; simp [resolveLoop] at h
  | cons n rest ih =>
    intro seen d h
    unfold resolveLoop at h
    split at h
    · exact ih seen d h
    · cases ho : resolveOneDependency (.Snippet r) n with
      | some dep =>
        rw [ho] at h
        rcases List.mem_cons.mp h with h1 | h2
        · subst h1; exact resolveOneDependency_snippet_uncatalogued r n d ho
        · exact ih (n :: seen) d h2
      | none =>
        rw [ho] at h
        exact ih (n :: seen) d h

/-- C2 (amended): for a `Snippet`-profile fragment, dependency resolution
excludes every catalogued crate (only names absent from the static catalog
can surface, as wildcard entries), and the orchestrator's test operation
returns the synthetic `"skipped"` success without a single compiler-driver
invocation. -/
theorem snippet_resolution_and_testing (ex : CodeExample) (r : String)
    (h : ex.context = .Snippet r) :
    (∀ d ∈ resolve_dependencies ex, catalogGet d.name = none) ∧
    (∀ (availableTargets : List String)
       (compileFn : CodeExample → String → Except String SpawnedProcess)
       (config : TestConfig),
       test_example availableTargets compileFn config ex =
         (snippetSkipResult ex.id, 0)) := by
  constructor
  · intro d hd
    rw [resolve_dependencies, h] at hd
    exact resolveLoop_snippet_uncatalogued r _ _ d hd
  · intro availableTargets compileFn config
    simp [test_example, h, ExampleContext.should_compile]

/-- Witness for C2: the concrete snippet fragment importing an
uncatalogued crate. -/
theorem snippet_resolution_and_testing_witness :
    exSnipUnknown.context = .Snippet "incomplete" ∧
    ((∀ d ∈ resolve_dependencies exSnipUnknown, catalogGet d.name = none) ∧
     (∀ (availableTargets : List String)
        (compileFn : CodeExample → String → Except String SpawnedProcess)
        (config : TestConfig),
        test_example availableTargets compileFn config exSnipUnknown =
          (snippetSkipResult exSnipUnknown.id, 0))) :=
  ⟨rfl, snippet_resolution_and_testing exSnipUnknown "incomplete" rfl⟩

/-- Counterexample for C1: a `TimeoutError` decided once at
`retry_count = 0` is memoized under a key that ignores the retry count, so
a later call for the same error signature with `retry_count = 3` (equal to
`max_retries`) STILL returns `Retry`. -/
theorem cached_retry_replayed_after_max_retries :
    ErrorRecoveryManager.default.max_retries = 3 ∧
    (determine_recovery_action ErrorRecoveryManager.default
        (.TimeoutError 30000) exStd TestConfig.default 0).1 =
      .Retry { TestConfig.default with compilation_timeout := 60000 }
        "Increasing timeout from 30000ms to 60000ms" ∧
    (determine_recovery_action
        (determine_recovery_action ErrorRecoveryManager.default
            (.TimeoutError 30000) exStd TestConfig.default 0).2
        (.TimeoutError 30000) exStd TestConfig.default 3).1 =
      .Retry { TestConfig.default with compilation_timeout := 60000 }
        "Increasing timeout from 30000ms to 60000ms" :=
  ⟨rfl, rfl, rfl⟩

/-- With the retry budget exhausted, the fallback-target search never
fires (its guard requires `retry_count < max_retries`). -/
theorem findFallbackTarget_none (m : ErrorRecoveryManager)
    (incompatible_target : String) (config : TestConfig) (retry_count : Nat)
    (h : m.max_retries ≤ retry_count) :
    ∀ l, findFallbackTarget m incompatible_target config retry_count l = none := by
  intro l
  have hnot : ¬(retry_count < m.max_retries) := not_lt.mpr h
  induction l with
  | nil => rfl
  | cons t rest ih => simp [findFallbackTarget, hnot, ih]

/-- C1 (amended): on a cache miss (fresh decision), no call with
`retry_count` at or above `max_retries` ever returns `Retry`, whatever the
error variant; memoized decisions, however, are replayed without consulting
`retry_count`, so `Retry` can recur beyond the budget (see the
counterexample). -/
theorem fresh_decision_no_retry_at_max (m : ErrorRecoveryManager)
    (error : CompilationError) (ex : CodeExample) (config : TestConfig)
    (retry_count : Nat)
    (hcache : recoveryCacheGet m.recovery_cache
      (error_cache_key error ex.context) = none)
    (hrc : m.max_retries ≤ retry_count) :
    ∀ (cfg : TestConfig) (reason : String),
      (determine_recovery_action m error ex config retry_count).1 ≠
        .Retry cfg reason := by
  intro cfg reason
  have hnot : ¬(retry_count < m.max_retries) := not_lt.mpr hrc
  simp only [determine_recovery_action]
  rw [hcache]
  cases error with
  | SyntaxError message line column =>
    simp only [freshRecoveryAction, handle_syntax_error]
    split <;> simp
    split <;> simp
  | DependencyError missing =>
    simp [freshRecoveryAction, handle_dependency_error, hrc]
  | FeatureError unsupported =>
    simp [freshRecoveryAction, handle_feature_error, hnot]
  | TargetError incompatible_target reason2 =>
    simp [freshRecoveryAction, handle_target_error,
      findFallbackTarget_none m incompatible_target config retry_count hrc]
  | TimeoutError duration =>
    simp [freshRecoveryAction, handle_timeout_error, hnot]
  | CompilationFailed exit_code message =>
    simp only [freshRecoveryAction, handle_compilation_failure]
    split <;> simp
    split <;> simp
  | IoError message =>
    simp [freshRecoveryAction, handle_io_error, hnot]

/-- Witness for C1's amended theorem: a fresh default manager, a timeout
error, and `retry_count = 3 = max_retries` — the decision is not `Retry`. -/
theorem fresh_decision_no_retry_at_max_witness :
    recoveryCacheGet ErrorRecoveryManager.default.recovery_cache
      (error_cache_key (.TimeoutError 30000) exStd.context) = none ∧
    ErrorRecoveryManager.default.max_retries ≤ 3 ∧
    ∀ (cfg : TestConfig) (reason : String),
      (determine_recovery_action ErrorRecoveryManager.default
          (.TimeoutError 30000) exStd TestConfig.default 3).1 ≠
        .Retry cfg reason :=
  ⟨rfl, Nat.le.refl,
   fresh_decision_no_retry_at_max ErrorRecoveryManager.default
     (.TimeoutError 30000) exStd TestConfig.default 3 rfl Nat.le.refl⟩

/-- Counterexample for C8: after a first `TimeoutError` of 30 s is decided
(and cached under a key that ignores the duration), a second call with a
100 s `TimeoutError` and `retry_count = 0` replays the cached `Retry` whose
timeout is 60 s — not double the timed-out duration (200 s). -/
theorem cached_timeout_decision_ignores_new_duration :
    (determine_recovery_action
        (determine_recovery_action ErrorRecoveryManager.default
            (.TimeoutError 30000) exSnipUnknown TestConfig.default 0).2
        (.TimeoutError 100000) exSnipUnknown TestConfig.default 0).1 =
      .Retry { TestConfig.default with compilation_timeout := 60000 }
        "Increasing timeout from 30000ms to 60000ms" ∧
    (60000 : Nat) ≠ 100000 * 2 :=
  ⟨rfl, by norm_num⟩

/-- C8 (amended): on a cache miss, a `TimeoutError` below `max_retries`
yields `Retry` with a configuration whose compilation timeout is exactly
double the timed-out duration, and at or above `max_retries` yields `Skip`;
memoized decisions are replayed without re-deriving either (see the
counterexample). -/
theorem fresh_timeout_decision_doubles_timeout (m : ErrorRecoveryManager)
    (ex : CodeExample) (config : TestConfig) (d retry_count : Nat)
    (hcache : recoveryCacheGet m.recovery_cache
      (error_cache_key (.TimeoutError d) ex.context) = none) :
    (retry_count < m.max_retries →
      (determine_recovery_action m (.TimeoutError d) ex config retry_count).1 =
        .Retry { TestConfig.default with compilation_timeout := d * 2 }
          ("Increasing timeout from " ++ toString d ++ "ms to " ++
           toString (d * 2) ++ "ms")) ∧
    (m.max_retries ≤ retry_count →
      (determine_recovery_action m (.TimeoutError d) ex config retry_count).1 =
        .Skip ("Compilation timeout after " ++ toString d ++ "ms (tried " ++
               toString retry_count ++ " times)")) := by
  constructor
  · intro hlt
    simp only [determine_recovery_action]
    rw [hcache]
    simp [freshRecoveryAction, handle_timeout_error, hlt]
  · intro hge
    have hnot : ¬(retry_count < m.max_retries) := not_lt.mpr hge
    simp only [determine_recovery_action]
    rw [hcache]
    simp [freshRecoveryAction, handle_timeout_error, hnot]

/-- Witness for C8's amended theorem: a fresh default manager deciding a
30 s `TimeoutError` at `retry_count = 0` retries with a 60 s timeout. -/
theorem fresh_timeout_decision_doubles_timeout_witness :
    recoveryCacheGet ErrorRecoveryManager.default.recovery_cache
      (error_cache_key (.TimeoutError 30000) exStd.context) = none ∧
    0 < ErrorRecoveryManager.default.max_retries ∧
    (determine_recovery_action ErrorRecoveryManager.default
        (.TimeoutError 30000) exStd TestConfig.default 0).1 =
      .Retry { TestConfig.default with compilation_timeout := 30000 * 2 }
        ("Increasing timeout from " ++ toString 30000 ++ "ms to " ++
         toString (30000 * 2) ++ "ms") :=
  ⟨rfl, Nat.succ_pos 2,
   (fresh_timeout_decision_doubles_timeout ErrorRecoveryManager.default
      exStd TestConfig.default 30000 0 rfl).1 (Nat.succ_pos 2)⟩

end EmbeddedRustTutorial
